import Mathlib

/-!
Verification of the Chat Session Controller of `src/app/page.tsx`
(Next.js chat front end).

The page component is shallowly embedded as a pure state machine:
`SessionState` holds the React state hooks (`messages`, `input`,
`isLoading`, `error`, `highlightedSuggestion`, `attachedFiles`);
each UI callback becomes a Lean function on `SessionState`.
The asynchronous `submitPrompt` is split into a pre-network phase
(`submitPromptStart`, everything before `await fetch`) and a settle
phase (`settle`), parametrised by a `FetchOutcome` describing what
the network call did.  JSON payloads are modelled by the inductive
`ChatJson`; JS nullish coalescing (`??`) and `JSON.stringify` are
modelled explicitly.
-/

namespace ChatPage

/-- A JSON value as produced by `response.json()` (`JSON.parse` never
yields `undefined`, so the model has no undefined constructor).
Object fields are kept in insertion order; `JSON.parse` collapses
duplicate keys, so modelled payload objects have distinct keys. -/
inductive ChatJson where
  | str (s : String)
  | num (n : Int)
  | bool (b : Bool)
  | null
  | arr (elems : List ChatJson)
  | obj (fields : List (String × ChatJson))

/-- Whether a JSON value is the `null` value (the nullish test `??`
performs on a parsed value, which is never `undefined`). -/
def ChatJson.isNull : ChatJson → Bool
  | .null => true
  | _ => false

/-- Escape of one character inside a JSON string literal, as
`JSON.stringify` produces it. -/
def escapeChar (c : Char) : String :=
  if c = '"' then "\\\""
  else if c = '\\' then "\\\\"
  else if c = '\n' then "\\n"
  else if c = '\r' then "\\r"
  else if c = '\t' then "\\t"
  else String.singleton c

/-- Serialization of a JSON string literal (quotes plus escapes). -/
def stringifyStr (s : String) : String :=
  "\"" ++ String.join (s.data.map escapeChar) ++ "\""

mutual

/-- Model of `JSON.stringify` on `ChatJson` values. -/
def stringify : ChatJson → String
  | .str s => stringifyStr s
  | .num n => toString n
  | .bool b => if b then "true" else "false"
  | .null => "null"
  | .arr xs => "[" ++ String.intercalate "," (stringifyList xs) ++ "]"
  | .obj fs => "\x7b" ++ String.intercalate "," (stringifyFields fs) ++ "\x7d"

/-- Serializations of the elements of a JSON array. -/
def stringifyList : List ChatJson → List String
  | [] => []
  | x :: xs => stringify x :: stringifyList xs

/-- Serializations of the fields of a JSON object. -/
def stringifyFields : List (String × ChatJson) → List String
  | [] => []
  | (k, v) :: fs => (stringifyStr k ++ ":" ++ stringify v) :: stringifyFields fs

end

/-- Model of the JS `String.prototype.trim()`: drop whitespace from
both ends. -/
def jsTrim (s : String) : String :=
  String.mk (((s.data.dropWhile Char.isWhitespace).reverse.dropWhile Char.isWhitespace).reverse)

/-- Property access `payload[k]` on a parsed JSON value that is not
`null`: a field of an object when present, otherwise `undefined`
(strings, numbers, booleans and arrays are boxed in JS, so access on
them yields `undefined`, it does not throw).  Access on `null` throws
a TypeError and is handled separately in `settle`. -/
def getField : ChatJson → String → Option ChatJson
  | .obj fs, k => (fs.find? (fun p => p.1 = k)).map Prod.snd
  | _, _ => none

/-- One step of the nullish-coalescing chain: `payload[k]` when that is
neither `undefined` nor `null`.  (`a ?? b` falls through exactly on
`undefined` and `null`.) -/
def getNonNull (payload : ChatJson) (k : String) : Option ChatJson :=
  match getField payload k with
  | some v => if v.isNull then none else some v
  | none => none

/-- Model of
`payload.reply ?? payload.answer ?? payload.output ?? payload.response ?? payload.message`
for a non-null `payload`. -/
def probeReply (payload : ChatJson) : Option ChatJson :=
  (getNonNull payload "reply").orElse fun _ =>
  (getNonNull payload "answer").orElse fun _ =>
  (getNonNull payload "output").orElse fun _ =>
  (getNonNull payload "response").orElse fun _ =>
  (getNonNull payload "message")

/-- Model of the full `assistantContent` expression: the coalescing
chain with the `JSON.stringify(payload)` fallback. -/
def extractReply (payload : ChatJson) : ChatJson :=
  match probeReply payload with
  | some v => v
  | none => ChatJson.str (stringify payload)

/-- Message role, `'user' | 'assistant'`. -/
inductive Role where
  | user
  | assistant
deriving DecidableEq

/-- A transcript message.  `content` is a `ChatJson` because
`assistantContent` is whatever value the probe yields (a string for
every payload the backend contract describes); user messages always
carry a `.str`. -/
structure Message where
  role : Role
  content : ChatJson

/-- A staged file handle (name, size, bytes). -/
structure FileHandle where
  name : String
  size : Nat
  content : List Nat
deriving DecidableEq

/-- One value appended to a `FormData` body: a text field or a file. -/
inductive FormEntry where
  | text (value : String)
  | file (f : FileHandle)
deriving DecidableEq

/-- A request body: a multipart form (ordered field list) or a raw
string body. -/
inductive RequestBody where
  | form (entries : List (String × FormEntry))
  | str (s : String)
deriving DecidableEq

/-- The `RequestInit` data `submitPrompt` passes to `fetch`:
`contentType` is the explicit `Content-Type` header when one is set. -/
structure Request where
  url : String
  method : String
  contentType : Option String
  body : RequestBody
deriving DecidableEq

/-- The React state hooks of the `Home` component that the controller
logic touches. -/
structure SessionState where
  messages : List Message
  input : String
  isLoading : Bool
  error : String
  highlightedSuggestion : Option String
  attachedFiles : List FileHandle

/-- The `WELCOME_MESSAGE` constant. -/
def WELCOME_MESSAGE : String :=
  "Hi there! I am connected to the FastAPI backend running inside Azure Container Apps. Ask me anything about the deployment or try out a few prompts below."

/-- The `DEFAULT_BACKEND_URL` constant. -/
def DEFAULT_BACKEND_URL : String :=
  "https://fastapi-dev.calmdesert-eab0db8f.eastus.azurecontainerapps.io"

/-- The `DEFAULT_BACKEND_PATH` constant. -/
def DEFAULT_BACKEND_PATH : String := "/chat"

/-- Model of `RAW_BACKEND_URL.replace(/\/+$/, '')`: strip every
trailing slash. -/
def stripTrailingSlashes (s : String) : String :=
  String.mk ((s.data.reverse.dropWhile (fun c => c = '/')).reverse)

/-- Model of the JS `p.startsWith('/')`: the first character is a
slash. -/
def startsWithSlash (p : String) : Bool :=
  match p.data with
  | [] => false
  | c :: _ => c = '/'

/-- Model of
`RAW_BACKEND_PATH.startsWith('/') ? RAW_BACKEND_PATH : '/'+RAW_BACKEND_PATH`. -/
def ensureLeadingSlash (p : String) : String :=
  if startsWithSlash p then p else "/" ++ p

/-- The endpoint resolution applied to a raw base URL and raw path
(`NORMALIZED_BACKEND_URL ++ NORMALIZED_BACKEND_PATH`). -/
def backendEndpoint (base path : String) : String :=
  stripTrailingSlashes base ++ ensureLeadingSlash path

/-- The `BACKEND_ENDPOINT` constant with the documented defaults (the
`NEXT_PUBLIC_*` environment overrides resolve via `??` to these
defaults when absent); it is a top-level `const`, fixed for the
process lifetime. -/
def BACKEND_ENDPOINT : String :=
  backendEndpoint DEFAULT_BACKEND_URL DEFAULT_BACKEND_PATH

/-- The initial session state (`useState` initialisers). -/
def initialState : SessionState :=
  { messages := [{ role := .assistant, content := .str WELCOME_MESSAGE }]
    input := ""
    isLoading := false
    error := ""
    highlightedSuggestion := none
    attachedFiles := [] }

/-- Model of `handleNewChat` ("new chat" / session reset): fresh
welcome transcript, all input-side state cleared.  (`isLoading` is not
touched by the callback.) -/
def handleNewChat (s : SessionState) : SessionState :=
  { s with
    messages := [{ role := .assistant, content := .str WELCOME_MESSAGE }]
    input := ""
    error := ""
    attachedFiles := []
    highlightedSuggestion := none }

/-- Model of `handleFileChange`: an empty selection is ignored
(`if (!files?.length) return`), otherwise the selected files are
appended after the already staged ones. -/
def handleFileChange (files : List FileHandle) (s : SessionState) : SessionState :=
  if files.length = 0 then s
  else { s with attachedFiles := s.attachedFiles ++ files }

/-- Model of `removeAttachment`:
`prev.filter((_, idx) => idx !== index)`. -/
def removeAttachment (index : Nat) (s : SessionState) : SessionState :=
  { s with
    attachedFiles :=
      ((s.attachedFiles.enum.filter (fun p => p.1 ≠ index)).map Prod.snd) }

/-- The request value built inside the `try` block: multipart form
when files are staged (no explicit content type), otherwise
`JSON.stringify({ prompt: trimmed })` with a JSON content type. -/
def buildRequest (endpoint trimmed : String) (files : List FileHandle) : Request :=
  if files.length > 0 then
    { url := endpoint
      method := "POST"
      contentType := none
      body := .form (("prompt", .text trimmed) :: files.map (fun f => ("files", .file f))) }
  else
    { url := endpoint
      method := "POST"
      contentType := some "application/json"
      body := .str (stringify (.obj [("prompt", .str trimmed)])) }

/-- Everything `submitPrompt` does before `await fetch`: the
`(preset ?? input).trim()` guard (empty text or an in-flight
submission returns with no effect, modelled as `none`), then clearing
the error, raising the loading flag, appending the user message,
clearing the input, and building the request. -/
def submitPromptStart (preset : Option String) (s : SessionState) :
    Option (SessionState × Request) :=
  let trimmed := jsTrim (preset.getD s.input)
  if trimmed = "" ∨ s.isLoading then none
  else
    some
      ({ s with
          error := ""
          isLoading := true
          messages := s.messages ++ [{ role := .user, content := .str trimmed }]
          input := "" },
        buildRequest BACKEND_ENDPOINT trimmed s.attachedFiles)

/-- What the network call did, seen from the `try` block:
`ok payload`: 2xx and `response.json()` parsed to `payload`;
`okParseError msg`: 2xx but `response.json()` rejected (body not valid
JSON) with an Error carrying `msg`;
`httpError body`: non-2xx, `response.text()` read `body`;
`networkError m`: `fetch` itself rejected, `some msg` when the thrown
value was an `Error` with message `msg`, `none` when it was not an
`Error`. -/
inductive FetchOutcome where
  | ok (payload : ChatJson)
  | okParseError (msg : String)
  | httpError (body : String)
  | networkError (m : Option String)

/-- The fixed apology text appended to the transcript on every failure
path. -/
def apologyText : String :=
  "I could not reach the backend right now. Please try again in a moment."

/-- The fallback error detail for a non-2xx response with an empty
body (`body || 'Backend responded with an error'`). -/
def backendErrorFallback : String := "Backend responded with an error"

/-- The fallback error detail when the thrown value is not an `Error`
instance. -/
def nonErrorFallback : String := "Unable to reach the backend. Please try again."

/-- Modelled runtime message of the TypeError raised by property
access on `null` (the exact wording is engine specific and does not
matter to any claim). -/
def nullAccessError : String := "TypeError: cannot read properties of null"

/-- The `catch` block followed by `finally`: record the error detail,
append the fixed apology assistant message, drop the loading flag.
Staged attachments are not touched. -/
def catchSettle (msg : String) (s : SessionState) : SessionState :=
  { s with
    error := msg
    messages := s.messages ++ [{ role := .assistant, content := .str apologyText }]
    isLoading := false }

/-- How `submitPrompt` settles once the network call resolved, per
`FetchOutcome`.  A 2xx whose payload is JSON `null` lands in the catch
block too, because `payload.reply` throws on `null`. -/
def settle (outcome : FetchOutcome) (s : SessionState) : SessionState :=
  match outcome with
  | .ok payload =>
      if payload.isNull then
        catchSettle nullAccessError s
      else
        { s with
          messages := s.messages ++ [{ role := .assistant, content := extractReply payload }]
          attachedFiles := []
          isLoading := false }
  | .okParseError msg => catchSettle msg s
  | .httpError body =>
      catchSettle (if body = "" then backendErrorFallback else body) s
  | .networkError m => catchSettle (m.getD nonErrorFallback) s

/-- One whole `submitPrompt` invocation: the pre-network phase, then,
when it was not rejected by the guard, the settle phase under the
given outcome.  The second component is the single request issued
(`none` when the guard rejected and no network activity happened). -/
def submitPrompt (preset : Option String) (outcome : FetchOutcome)
    (s : SessionState) : SessionState × Option Request :=
  match submitPromptStart preset s with
  | none => (s, none)
  | some (s1, req) => (settle outcome s1, some req)

/-- The user message `submitPrompt` appends for trimmed text `t`. -/
def userMsg (t : String) : Message :=
  { role := .user, content := .str t }

/-- The assistant message appended on every failure path. -/
def apologyMsg : Message :=
  { role := .assistant, content := .str apologyText }

/-- The probe order of the coalescing chain. -/
def replyKeys : List String := ["reply", "answer", "output", "response", "message"]

/-- Reading of the claim's words "the first present of the fields":
the value of the first field among the five that is present on the
payload, regardless of that value being `null` or not; this is the
spec-side definition compared against the source-side `extractReply`. -/
def firstPresent (payload : ChatJson) : Option ChatJson :=
  (replyKeys.filterMap (getField payload)).head?

/-- The claim's displayed text: the first present field's value, else
the full JSON serialization of the payload. -/
def specDisplay (payload : ChatJson) : ChatJson :=
  match firstPresent payload with
  | some v => v
  | none => ChatJson.str (stringify payload)

/-- Reading of the amended claim's words: the value of the first
field among the five that is present with a non-null value, in
priority order (a field holding JSON null is skipped like an absent
one), falling back to the full JSON serialization of the payload when
no such field exists.  Spec-side definition, compared against the
source-side `extractReply`. -/
def specSkipNullDisplay (payload : ChatJson) : ChatJson :=
  match ((replyKeys.filterMap (getField payload)).filter (fun v => !v.isNull)).head? with
  | some v => v
  | none => ChatJson.str (stringify payload)

/-- Whether a path carries a single leading slash followed by more
slashes (the inputs on which the claimed "exactly one separating
slash" shape breaks). -/
def startsWithDoubleSlash (p : String) : Bool :=
  match p.data with
  | '/' :: '/' :: _ => true
  | _ => false

/-- Reading of the claim's words for the endpoint: base with trailing
slashes stripped, then the path carrying exactly one leading slash. -/
def specSingleSlashEndpoint (base path : String) : String :=
  stripTrailingSlashes base ++ "/" ++ String.mk (path.data.dropWhile (fun c => c = '/'))

/-! ### Helper lemmas -/

lemma enumFrom_filter_ne_of_lt {α : Type} (l : List α) (j : Nat) :
    ∀ n, j < n → ((List.enumFrom n l).filter (fun p => p.1 ≠ j)).map Prod.snd = l := by
  induction l with
  | nil =>
      intro n _
      rfl
  | cons a l ih =>
      intro n h
      have hj : ¬ (n = j) := by omega
      have ih' := ih (n + 1) (by omega)
      simp only [ne_eq, decide_not] at ih' ⊢
      simp [List.enumFrom, List.filter_cons, hj, ih']

lemma enumFrom_filter_ne_erase {α : Type} (l : List α) :
    ∀ i n, ((List.enumFrom n l).filter (fun p => p.1 ≠ n + i)).map Prod.snd
      = l.take i ++ l.drop (i + 1) := by
  induction l with
  | nil =>
      intro i n
      simp
  | cons a l ih =>
      intro i n
      cases i with
      | zero =>
          have hk := enumFrom_filter_ne_of_lt l n (n + 1) (by omega)
          simp only [ne_eq, decide_not] at hk ⊢
          simp [List.enumFrom, List.filter_cons, hk]
      | succ i =>
          have hj : ¬ (n = n + (i + 1)) := by omega
          have ih' := ih i (n + 1)
          simp only [ne_eq, decide_not] at ih' ⊢
          rw [show n + (i + 1) = n + 1 + i from by omega]
          simp [List.enumFrom, List.filter_cons, hj, ih',
            show ¬ (n = n + 1 + i) from by omega]

lemma removeAttachment_attachedFiles (i : Nat) (s : SessionState) :
    (removeAttachment i s).attachedFiles
      = s.attachedFiles.take i ++ s.attachedFiles.drop (i + 1) := by
  have h := enumFrom_filter_ne_erase s.attachedFiles i 0
  simp only [Nat.zero_add] at h
  simpa [removeAttachment, List.enum] using h

lemma submitPromptStart_eq (preset : Option String) (s : SessionState)
    (h1 : jsTrim (preset.getD s.input) ≠ "") (h2 : s.isLoading = false) :
    submitPromptStart preset s =
      some
        ({ s with
            error := ""
            isLoading := true
            messages := s.messages ++ [userMsg (jsTrim (preset.getD s.input))]
            input := "" },
          buildRequest BACKEND_ENDPOINT (jsTrim (preset.getD s.input)) s.attachedFiles) := by
  unfold submitPromptStart
  simp [h1, h2, userMsg]

lemma settle_catch_shape (msg : String) (s : SessionState) :
    (catchSettle msg s).messages = s.messages ++ [apologyMsg] ∧
    (catchSettle msg s).error = msg ∧
    (catchSettle msg s).isLoading = false ∧
    (catchSettle msg s).attachedFiles = s.attachedFiles ∧
    (catchSettle msg s).input = s.input := by
  simp [catchSettle, apologyMsg]

lemma settle_messages (outcome : FetchOutcome) (s : SessionState) :
    ∃ c, (settle outcome s).messages
      = s.messages ++ [{ role := Role.assistant, content := c }] := by
  cases outcome with
  | ok payload =>
      cases hn : payload.isNull with
      | true => exact ⟨.str apologyText, by simp [settle, hn, catchSettle]⟩
      | false => exact ⟨extractReply payload, by simp [settle, hn]⟩
  | okParseError m => exact ⟨.str apologyText, by simp [settle, catchSettle]⟩
  | httpError body => exact ⟨.str apologyText, by simp [settle, catchSettle]⟩
  | networkError m => exact ⟨.str apologyText, by simp [settle, catchSettle]⟩

lemma submitPrompt_eq (preset : Option String) (outcome : FetchOutcome) (s : SessionState)
    (h1 : jsTrim (preset.getD s.input) ≠ "") (h2 : s.isLoading = false) :
    submitPrompt preset outcome s =
      (settle outcome
        { s with
            error := ""
            isLoading := true
            messages := s.messages ++ [userMsg (jsTrim (preset.getD s.input))]
            input := "" },
        some (buildRequest BACKEND_ENDPOINT (jsTrim (preset.getD s.input)) s.attachedFiles)) := by
  unfold submitPrompt
  rw [submitPromptStart_eq preset s h1 h2]

/-! ### Claim theorems -/

/-- C1: a `submit` call with non-empty trimmed text made while no
submission is in flight appends exactly one user message carrying the
trimmed text before the network call starts, and exactly one
assistant message when the call settles, on the success and the
failure path alike; the transcript is only ever extended at its end,
never reordered. -/
theorem c1_exactly_one_user_and_assistant_message
    (preset : Option String) (outcome : FetchOutcome) (s : SessionState)
    (h1 : jsTrim (preset.getD s.input) ≠ "") (h2 : s.isLoading = false) :
    (∀ s1 req, submitPromptStart preset s = some (s1, req) →
        s1.messages = s.messages ++ [userMsg (jsTrim (preset.getD s.input))]) ∧
    (∃ c, (submitPrompt preset outcome s).1.messages =
        s.messages ++ [userMsg (jsTrim (preset.getD s.input)),
                       { role := Role.assistant, content := c }]) := by
  constructor
  · intro s1 req hsr
    rw [submitPromptStart_eq preset s h1 h2] at hsr
    simp only [Option.some.injEq, Prod.mk.injEq] at hsr
    obtain ⟨hs1, _⟩ := hsr
    subst hs1
    simp
  · obtain ⟨c, hc⟩ := settle_messages outcome
      { s with
          error := ""
          isLoading := true
          messages := s.messages ++ [userMsg (jsTrim (preset.getD s.input))]
          input := "" }
    refine ⟨c, ?_⟩
    rw [submitPrompt_eq preset outcome s h1 h2]
    simpa using hc

/-- Witness for C1 at the concrete scenario of the spec: submitting
"Hello" on the initial state with a 2xx reply payload. -/
theorem c1_witness :
    (∀ s1 req, submitPromptStart (some "Hello") initialState = some (s1, req) →
        s1.messages = initialState.messages
          ++ [userMsg (jsTrim ((some "Hello").getD initialState.input))]) ∧
    (∃ c, (submitPrompt (some "Hello")
            (.ok (.obj [("reply", .str "Hi!")])) initialState).1.messages =
        initialState.messages
          ++ [userMsg (jsTrim ((some "Hello").getD initialState.input)),
              { role := Role.assistant, content := c }]) :=
  c1_exactly_one_user_and_assistant_message (some "Hello")
    (.ok (.obj [("reply", .str "Hi!")])) initialState (by decide) rfl

/-- C2: while a submission is in flight, or when the text trims to
empty, `submit` returns with no user message appended, no request
issued, and the session state untouched. -/
theorem c2_single_flight_and_empty_guard
    (preset : Option String) (outcome : FetchOutcome) (s : SessionState)
    (h : jsTrim (preset.getD s.input) = "" ∨ s.isLoading = true) :
    submitPrompt preset outcome s = (s, none) := by
  have hnone : submitPromptStart preset s = none := by
    unfold submitPromptStart
    rcases h with h | h <;> simp [h]
  unfold submitPrompt
  rw [hnone]

/-- Witness for C2: a second submission attempted while one is in
flight leaves the state unchanged and issues no request; an
all-whitespace input does the same. -/
theorem c2_witness :
    submitPrompt none (FetchOutcome.httpError "boom")
        { initialState with input := "Hello", isLoading := true }
      = ({ initialState with input := "Hello", isLoading := true }, none) ∧
    submitPrompt none (FetchOutcome.httpError "boom")
        { initialState with input := "   " }
      = ({ initialState with input := "   " }, none) :=
  ⟨c2_single_flight_and_empty_guard none (FetchOutcome.httpError "boom")
      { initialState with input := "Hello", isLoading := true } (Or.inr rfl),
    c2_single_flight_and_empty_guard none (FetchOutcome.httpError "boom")
      { initialState with input := "   " } (Or.inl (by decide))⟩

/-- C8: after `resetSession` (the new-chat callback), whatever the
prior state, the transcript is exactly one assistant welcome message,
and input, error, staged attachments and highlighted suggestion are
all cleared. -/
theorem c8_reset_session (s : SessionState) :
    (handleNewChat s).messages
      = [{ role := Role.assistant, content := ChatJson.str WELCOME_MESSAGE }] ∧
    (handleNewChat s).input = "" ∧
    (handleNewChat s).error = "" ∧
    (handleNewChat s).attachedFiles = [] ∧
    (handleNewChat s).highlightedSuggestion = none := by
  simp [handleNewChat]

/-- C9: staging appends selected files after the already staged ones
and ignores an empty selection; removal deletes exactly the file at
the given position, keeping relative order, and is a no-op out of
range; staging two files and removing index 0 leaves exactly the
second. -/
theorem c9_attachment_staging
    (s : SessionState) (files : List FileHandle) (i : Nat) :
    handleFileChange [] s = s ∧
    (files ≠ [] → handleFileChange files s
        = { s with attachedFiles := s.attachedFiles ++ files }) ∧
    (i < s.attachedFiles.length →
        (removeAttachment i s).attachedFiles
          = s.attachedFiles.take i ++ s.attachedFiles.drop (i + 1)) ∧
    (s.attachedFiles.length ≤ i → removeAttachment i s = s) ∧
    (∀ f1 f2 : FileHandle,
        (removeAttachment 0 (handleFileChange [f1, f2] initialState)).attachedFiles
          = [f2]) := by
  refine ⟨?_, ?_, ?_, ?_, ?_⟩
  · simp [handleFileChange]
  · intro hf
    simp [handleFileChange, hf]
  · intro _
    exact removeAttachment_attachedFiles i s
  · intro hle
    have h := removeAttachment_attachedFiles i s
    rw [List.take_of_length_le hle, List.drop_eq_nil_of_le (by omega),
      List.append_nil] at h
    have hrw : removeAttachment i s
        = { s with attachedFiles := (removeAttachment i s).attachedFiles } := rfl
    rw [hrw, h]
  · intro f1 f2
    rw [removeAttachment_attachedFiles]
    simp [handleFileChange, initialState]

/-- Witness for C9: two concrete files staged on the fresh session,
then index 0 removed (in-range) and index 5 removed (out of range). -/
theorem c9_witness :
    ((removeAttachment 0
        { initialState with attachedFiles := [⟨"a.png", 1, [0]⟩, ⟨"b.pdf", 2, [1]⟩] }).attachedFiles
      = List.take 0 [⟨"a.png", 1, [0]⟩, ⟨"b.pdf", 2, [1]⟩]
          ++ List.drop 1 [(⟨"a.png", 1, [0]⟩ : FileHandle), ⟨"b.pdf", 2, [1]⟩]) ∧
    (removeAttachment 5
        { initialState with attachedFiles := [⟨"a.png", 1, [0]⟩, ⟨"b.pdf", 2, [1]⟩] }
      = { initialState with attachedFiles := [⟨"a.png", 1, [0]⟩, ⟨"b.pdf", 2, [1]⟩] }) ∧
    (removeAttachment 0
        (handleFileChange [⟨"a.png", 1, [0]⟩, ⟨"b.pdf", 2, [1]⟩] initialState)).attachedFiles
      = [⟨"b.pdf", 2, [1]⟩] :=
  ⟨(c9_attachment_staging
      { initialState with attachedFiles := [⟨"a.png", 1, [0]⟩, ⟨"b.pdf", 2, [1]⟩] }
      [] 0).2.2.1 (by decide),
    (c9_attachment_staging
      { initialState with attachedFiles := [⟨"a.png", 1, [0]⟩, ⟨"b.pdf", 2, [1]⟩] }
      [] 5).2.2.2.1 (by decide),
    (c9_attachment_staging initialState [] 0).2.2.2.2 ⟨"a.png", 1, [0]⟩ ⟨"b.pdf", 2, [1]⟩⟩

/-- C4: every accepted submission issues exactly one POST to the
fixed endpoint, multipart (text under "prompt", each staged file under
a repeated "files" field, no explicit content type) when attachments
are staged, else a JSON body with the prompt and a JSON content
type. -/
theorem c4_request_shapes
    (preset : Option String) (outcome : FetchOutcome) (s : SessionState)
    (h1 : jsTrim (preset.getD s.input) ≠ "") (h2 : s.isLoading = false) :
    ∃ req, (submitPrompt preset outcome s).2 = some req ∧
      req.url = BACKEND_ENDPOINT ∧
      req.method = "POST" ∧
      (s.attachedFiles ≠ [] →
        req.contentType = none ∧
        req.body = RequestBody.form
          (("prompt", FormEntry.text (jsTrim (preset.getD s.input)))
            :: s.attachedFiles.map (fun f => ("files", FormEntry.file f)))) ∧
      (s.attachedFiles = [] →
        req.contentType = some "application/json" ∧
        req.body = RequestBody.str
          (stringify (ChatJson.obj
            [("prompt", ChatJson.str (jsTrim (preset.getD s.input)))]))) := by
  refine ⟨buildRequest BACKEND_ENDPOINT (jsTrim (preset.getD s.input)) s.attachedFiles,
    ?_, ?_, ?_, ?_, ?_⟩
  · rw [submitPrompt_eq preset outcome s h1 h2]
  · unfold buildRequest
    split <;> rfl
  · unfold buildRequest
    split <;> rfl
  · intro hne
    unfold buildRequest
    rw [if_pos]
    · exact ⟨rfl, rfl⟩
    · have := List.length_pos.mpr hne
      omega
  · intro he
    unfold buildRequest
    rw [if_neg]
    · exact ⟨rfl, rfl⟩
    · simp [he]

/-- Witness for C4: a submission with one staged file, and one with
none. -/
theorem c4_witness :
    (∃ req, (submitPrompt (some "Hello") (.httpError "x")
        { initialState with attachedFiles := [⟨"a.png", 1, [0]⟩] }).2 = some req ∧
      req.url = BACKEND_ENDPOINT ∧
      req.method = "POST" ∧
      ([(⟨"a.png", 1, [0]⟩ : FileHandle)] ≠ [] →
        req.contentType = none ∧
        req.body = RequestBody.form
          (("prompt", FormEntry.text (jsTrim ((some "Hello").getD "")))
            :: [(⟨"a.png", 1, [0]⟩ : FileHandle)].map (fun f => ("files", FormEntry.file f)))) ∧
      ([(⟨"a.png", 1, [0]⟩ : FileHandle)] = [] →
        req.contentType = some "application/json" ∧
        req.body = RequestBody.str
          (stringify (ChatJson.obj
            [("prompt", ChatJson.str (jsTrim ((some "Hello").getD "")))]))))
      ∧
    (∃ req, (submitPrompt (some "Hello") (.httpError "x") initialState).2 = some req ∧
      req.url = BACKEND_ENDPOINT ∧
      req.method = "POST" ∧
      (initialState.attachedFiles ≠ [] →
        req.contentType = none ∧
        req.body = RequestBody.form
          (("prompt", FormEntry.text (jsTrim ((some "Hello").getD initialState.input)))
            :: initialState.attachedFiles.map (fun f => ("files", FormEntry.file f)))) ∧
      (initialState.attachedFiles = [] →
        req.contentType = some "application/json" ∧
        req.body = RequestBody.str
          (stringify (ChatJson.obj
            [("prompt", ChatJson.str (jsTrim ((some "Hello").getD initialState.input)))])))) :=
  ⟨c4_request_shapes (some "Hello") (.httpError "x")
      { initialState with attachedFiles := [⟨"a.png", 1, [0]⟩] } (by decide) rfl,
    c4_request_shapes (some "Hello") (.httpError "x") initialState (by decide) rfl⟩

/-- C5: a non-2xx response and a transport failure settle identically:
exactly one assistant message carrying the fixed apology text is
appended, the error detail (response body, or the fallback strings)
goes to the separate error slot and never into the transcript, the
loading flag drops, and the next accepted submission clears the error
slot again. -/
theorem c5_failure_settlement
    (preset : Option String) (s : SessionState) (body : String) (m : Option String)
    (h1 : jsTrim (preset.getD s.input) ≠ "") (h2 : s.isLoading = false) :
    ((submitPrompt preset (.httpError body) s).1.messages
        = s.messages ++ [userMsg (jsTrim (preset.getD s.input)), apologyMsg]) ∧
    ((submitPrompt preset (.httpError body) s).1.error
        = if body = "" then backendErrorFallback else body) ∧
    ((submitPrompt preset (.httpError body) s).1.isLoading = false) ∧
    ((submitPrompt preset (.networkError m) s).1.messages
        = s.messages ++ [userMsg (jsTrim (preset.getD s.input)), apologyMsg]) ∧
    ((submitPrompt preset (.networkError m) s).1.error = m.getD nonErrorFallback) ∧
    ((submitPrompt preset (.networkError m) s).1.isLoading = false) ∧
    (∀ s1 req, submitPromptStart preset s = some (s1, req) → s1.error = "") := by
  rw [submitPrompt_eq preset (.httpError body) s h1 h2,
      submitPrompt_eq preset (.networkError m) s h1 h2]
  refine ⟨?_, ?_, ?_, ?_, ?_, ?_, ?_⟩
  · simp [settle, catchSettle, apologyMsg]
  · simp [settle, catchSettle]
  · simp [settle, catchSettle]
  · simp [settle, catchSettle, apologyMsg]
  · simp [settle, catchSettle]
  · simp [settle, catchSettle]
  · intro s1 req hsr
    rw [submitPromptStart_eq preset s h1 h2] at hsr
    simp only [Option.some.injEq, Prod.mk.injEq] at hsr
    obtain ⟨hs1, _⟩ := hsr
    subst hs1
    rfl

/-- Witness for C5, the spec scenario: submit "Hello" against a 500
response with body "server exploded", and against a transport
failure. -/
theorem c5_witness :
    ((submitPrompt (some "Hello") (.httpError "server exploded") initialState).1.messages
        = initialState.messages
          ++ [userMsg (jsTrim ((some "Hello").getD initialState.input)), apologyMsg]) ∧
    ((submitPrompt (some "Hello") (.httpError "server exploded") initialState).1.error
        = if "server exploded" = "" then backendErrorFallback else "server exploded") ∧
    ((submitPrompt (some "Hello") (.httpError "server exploded") initialState).1.isLoading
        = false) ∧
    ((submitPrompt (some "Hello") (.networkError (some "Failed to fetch")) initialState).1.messages
        = initialState.messages
          ++ [userMsg (jsTrim ((some "Hello").getD initialState.input)), apologyMsg]) ∧
    ((submitPrompt (some "Hello") (.networkError (some "Failed to fetch")) initialState).1.error
        = (some "Failed to fetch").getD nonErrorFallback) ∧
    ((submitPrompt (some "Hello") (.networkError (some "Failed to fetch")) initialState).1.isLoading
        = false) ∧
    (∀ s1 req, submitPromptStart (some "Hello") initialState = some (s1, req) →
        s1.error = "") :=
  c5_failure_settlement (some "Hello") initialState "server exploded"
    (some "Failed to fetch") (by decide) rfl

/-- C7: the staged attachment set is cleared exactly by a successful
submission (2xx whose payload yielded a reply); every failure path,
including a 2xx whose payload is JSON null, leaves it unchanged. -/
theorem c7_attachments_cleared_iff_success
    (preset : Option String) (s : SessionState) (payload : ChatJson)
    (pm body : String) (m : Option String)
    (h1 : jsTrim (preset.getD s.input) ≠ "") (h2 : s.isLoading = false)
    (hp : payload.isNull = false) :
    ((submitPrompt preset (.ok payload) s).1.attachedFiles = []) ∧
    ((submitPrompt preset (.ok ChatJson.null) s).1.attachedFiles = s.attachedFiles) ∧
    ((submitPrompt preset (.okParseError pm) s).1.attachedFiles = s.attachedFiles) ∧
    ((submitPrompt preset (.httpError body) s).1.attachedFiles = s.attachedFiles) ∧
    ((submitPrompt preset (.networkError m) s).1.attachedFiles = s.attachedFiles) := by
  rw [submitPrompt_eq preset (.ok payload) s h1 h2,
      submitPrompt_eq preset (.ok ChatJson.null) s h1 h2,
      submitPrompt_eq preset (.okParseError pm) s h1 h2,
      submitPrompt_eq preset (.httpError body) s h1 h2,
      submitPrompt_eq preset (.networkError m) s h1 h2]
  refine ⟨?_, ?_, ?_, ?_, ?_⟩
  · simp [settle, catchSettle, hp]
  · simp [settle, catchSettle, ChatJson.isNull]
  · simp [settle, catchSettle]
  · simp [settle, catchSettle]
  · simp [settle, catchSettle]

/-- Witness for C7: one staged file, submitted against a parsed
reply, a null payload, a parse failure, a 500, and a transport
failure. -/
theorem c7_witness :
    ((submitPrompt (some "Hello") (.ok (.obj [("reply", .str "Hi!")]))
        { initialState with attachedFiles := [⟨"a.png", 1, [0]⟩] }).1.attachedFiles = []) ∧
    ((submitPrompt (some "Hello") (.ok ChatJson.null)
        { initialState with attachedFiles := [⟨"a.png", 1, [0]⟩] }).1.attachedFiles
      = [⟨"a.png", 1, [0]⟩]) ∧
    ((submitPrompt (some "Hello") (.okParseError "Unexpected token")
        { initialState with attachedFiles := [⟨"a.png", 1, [0]⟩] }).1.attachedFiles
      = [⟨"a.png", 1, [0]⟩]) ∧
    ((submitPrompt (some "Hello") (.httpError "server exploded")
        { initialState with attachedFiles := [⟨"a.png", 1, [0]⟩] }).1.attachedFiles
      = [⟨"a.png", 1, [0]⟩]) ∧
    ((submitPrompt (some "Hello") (.networkError none)
        { initialState with attachedFiles := [⟨"a.png", 1, [0]⟩] }).1.attachedFiles
      = [⟨"a.png", 1, [0]⟩]) := by
  have h := c7_attachments_cleared_iff_success (some "Hello")
    { initialState with attachedFiles := [⟨"a.png", 1, [0]⟩] }
    (.obj [("reply", .str "Hi!")]) "Unexpected token" "server exploded" none
    (by decide) rfl rfl
  exact h

/-- C10: a 2xx response whose body is not valid JSON runs the failure
path: the fixed apology is appended to the transcript, the parse
error's message lands in the error slot, the staged attachments stay,
and the loading flag drops. -/
theorem c10_invalid_json_takes_failure_path
    (preset : Option String) (s : SessionState) (pm : String)
    (h1 : jsTrim (preset.getD s.input) ≠ "") (h2 : s.isLoading = false) :
    ((submitPrompt preset (.okParseError pm) s).1.messages
        = s.messages ++ [userMsg (jsTrim (preset.getD s.input)), apologyMsg]) ∧
    ((submitPrompt preset (.okParseError pm) s).1.error = pm) ∧
    ((submitPrompt preset (.okParseError pm) s).1.attachedFiles = s.attachedFiles) ∧
    ((submitPrompt preset (.okParseError pm) s).1.isLoading = false) := by
  rw [submitPrompt_eq preset (.okParseError pm) s h1 h2]
  refine ⟨?_, ?_, ?_, ?_⟩ <;> simp [settle, catchSettle, apologyMsg]

/-- Witness for C10: submitting "Hello" with one staged file against
a 2xx whose body failed to parse. -/
theorem c10_witness :
    ((submitPrompt (some "Hello") (.okParseError "Unexpected token <")
        { initialState with attachedFiles := [⟨"a.png", 1, [0]⟩] }).1.messages
        = ({ initialState with
              attachedFiles := [(⟨"a.png", 1, [0]⟩ : FileHandle)] } : SessionState).messages
          ++ [userMsg (jsTrim ((some "Hello").getD initialState.input)), apologyMsg]) ∧
    ((submitPrompt (some "Hello") (.okParseError "Unexpected token <")
        { initialState with attachedFiles := [⟨"a.png", 1, [0]⟩] }).1.error
      = "Unexpected token <") ∧
    ((submitPrompt (some "Hello") (.okParseError "Unexpected token <")
        { initialState with attachedFiles := [⟨"a.png", 1, [0]⟩] }).1.attachedFiles
      = [⟨"a.png", 1, [0]⟩]) ∧
    ((submitPrompt (some "Hello") (.okParseError "Unexpected token <")
        { initialState with attachedFiles := [⟨"a.png", 1, [0]⟩] }).1.isLoading = false) :=
  c10_invalid_json_takes_failure_path (some "Hello")
    { initialState with attachedFiles := [⟨"a.png", 1, [0]⟩] }
    "Unexpected token <" (by decide) rfl

lemma head_filter_nonNull_cons (payload : ChatJson) (k : String) (keys : List String) :
    ((List.filterMap (getField payload) (k :: keys)).filter (fun v => !v.isNull)).head?
      = (getNonNull payload k).orElse
          (fun _ =>
            ((List.filterMap (getField payload) keys).filter (fun v => !v.isNull)).head?) := by
  unfold getNonNull
  cases hg : getField payload k with
  | none => simp [List.filterMap_cons, hg, Option.orElse]
  | some v =>
      cases hv : v.isNull with
      | true => simp [List.filterMap_cons, hg, hv, Option.orElse]
      | false => simp [List.filterMap_cons, hg, hv, Option.orElse]

lemma extractReply_eq_specSkipNull (payload : ChatJson) :
    extractReply payload = specSkipNullDisplay payload := by
  unfold extractReply specSkipNullDisplay probeReply replyKeys
  rw [head_filter_nonNull_cons, head_filter_nonNull_cons, head_filter_nonNull_cons,
    head_filter_nonNull_cons, head_filter_nonNull_cons]
  cases getNonNull payload "reply" <;>
    cases getNonNull payload "answer" <;>
      cases getNonNull payload "output" <;>
        cases getNonNull payload "response" <;>
          cases getNonNull payload "message" <;>
            simp [Option.orElse]

/-- C3 counterexample: on payload `\x7b"reply": null, "answer": "A"\x7d`
the code displays "A" although the first present probe field is
`reply`; and a 2xx whose parsed payload is JSON `null` takes the
failure path (property access on null throws) instead of displaying
the serialization of the payload. -/
theorem c3_counterexample :
    extractReply (ChatJson.obj [("reply", ChatJson.null), ("answer", ChatJson.str "A")])
      = ChatJson.str "A" ∧
    specDisplay (ChatJson.obj [("reply", ChatJson.null), ("answer", ChatJson.str "A")])
      = ChatJson.null ∧
    ChatJson.str "A" ≠ ChatJson.null ∧
    (settle (.ok ChatJson.null) initialState).messages
      = initialState.messages ++ [apologyMsg] ∧
    (settle (.ok ChatJson.null) initialState).error = nullAccessError ∧
    apologyText ≠ stringify ChatJson.null := by
  refine ⟨rfl, rfl, fun h => ChatJson.noConfusion h, ?_, ?_, by decide⟩
  · simp [settle, catchSettle, ChatJson.isNull, apologyMsg]
  · simp [settle, catchSettle, ChatJson.isNull]

/-- C3 (amended): on a 2xx response whose parsed payload is not JSON
null, the displayed assistant text is the value of the first field
among reply, answer, output, response, message that is present with a
non-null value, in that priority order; a field holding JSON null is
skipped like an absent one, and when no such field exists the
displayed text is the full JSON serialization of the payload (a
JSON-null payload itself lands on the failure path); in particular
`\x7b"answer":"A","message":"M"\x7d` displays "A",
`\x7b"reply":null,"answer":"A"\x7d` displays "A", and
`\x7b"foo":"bar"\x7d` displays its serialization. -/
theorem c3_reply_extraction_amended (payload : ChatJson) (s : SessionState)
    (hnull : payload.isNull = false) :
    (settle (.ok payload) s).messages
      = s.messages
        ++ [{ role := Role.assistant, content := specSkipNullDisplay payload }] ∧
    extractReply (ChatJson.obj [("answer", .str "A"), ("message", .str "M")])
      = .str "A" ∧
    extractReply (ChatJson.obj [("reply", ChatJson.null), ("answer", .str "A")])
      = .str "A" ∧
    extractReply (ChatJson.obj [("foo", .str "bar")])
      = .str "\x7b\"foo\":\"bar\"\x7d" := by
  refine ⟨?_, rfl, rfl, rfl⟩
  simp [settle, hnull, extractReply_eq_specSkipNull]

/-- Witness for C3 (amended) at the payload
`\x7b"reply":null,"answer":"A"\x7d` on the fresh session, where the
null-valued `reply` field is skipped. -/
theorem c3_witness :
    ((settle (.ok (ChatJson.obj [("reply", ChatJson.null), ("answer", .str "A")]))
        initialState).messages
      = initialState.messages
        ++ [{ role := Role.assistant,
              content := specSkipNullDisplay
                (ChatJson.obj [("reply", ChatJson.null), ("answer", .str "A")]) }]) ∧
    extractReply (ChatJson.obj [("answer", .str "A"), ("message", .str "M")])
      = .str "A" ∧
    extractReply (ChatJson.obj [("reply", ChatJson.null), ("answer", .str "A")])
      = .str "A" ∧
    extractReply (ChatJson.obj [("foo", .str "bar")])
      = .str "\x7b\"foo\":\"bar\"\x7d" :=
  c3_reply_extraction_amended
    (ChatJson.obj [("reply", ChatJson.null), ("answer", .str "A")]) initialState rfl

/-- C6 counterexample: with base "https://x/" and path "//chat" the
code resolves to "https://x//chat", with two slashes between base and
path, while the claimed shape (path prefixed by a single leading
slash) yields "https://x/chat". -/
theorem c6_counterexample :
    backendEndpoint "https://x/" "//chat" = "https://x//chat" ∧
    specSingleSlashEndpoint "https://x/" "//chat" = "https://x/chat" ∧
    ("https://x//chat" : String) ≠ "https://x/chat" := by
  refine ⟨by decide, by decide, by decide⟩

/-- C6 (amended): the resolved endpoint is the base with all trailing
slashes stripped, concatenated with the path unchanged when it
already starts with a slash and otherwise with one slash prepended;
hence whenever the path does not start with two slashes, exactly one
slash separates base and path (for example base "https://x/" with
path "chat" resolves to "https://x/chat"); the endpoint is a module
constant, fixed for the process lifetime. -/
theorem c6_endpoint_resolution_amended (base path : String)
    (h : startsWithDoubleSlash path = false) :
    backendEndpoint base path = specSingleSlashEndpoint base path ∧
    backendEndpoint "https://x/" "chat" = "https://x/chat" ∧
    BACKEND_ENDPOINT = backendEndpoint DEFAULT_BACKEND_URL DEFAULT_BACKEND_PATH := by
  refine ⟨?_, by decide, rfl⟩
  have key : ensureLeadingSlash path
      = "/" ++ String.mk (path.data.dropWhile (fun c => c = '/')) := by
    obtain ⟨data⟩ := path
    apply String.ext
    cases data with
    | nil => simp [ensureLeadingSlash, startsWithSlash, String.data_append]
    | cons c cs =>
        by_cases hc : c = '/'
        · subst hc
          have hcs : cs.dropWhile (fun c => c = '/') = cs := by
            cases cs with
            | nil => rfl
            | cons c2 cs2 =>
                have hc2 : ¬ (c2 = '/') := by
                  intro h2
                  subst h2
                  exact absurd h (by simp [startsWithDoubleSlash])
                simp [List.dropWhile, hc2]
          simp [ensureLeadingSlash, startsWithSlash, String.data_append,
            List.dropWhile, hcs]
        · have hs : startsWithSlash (String.mk (c :: cs)) = false := by
            simp [startsWithSlash, hc]
          simp [ensureLeadingSlash, hs, String.data_append, List.dropWhile, hc]
  unfold backendEndpoint specSingleSlashEndpoint
  rw [key, ← String.append_assoc]

/-- Witness for C6 (amended): the claim's own example, base
"https://x/" with path "chat". -/
theorem c6_witness :
    backendEndpoint "https://x/" "chat" = specSingleSlashEndpoint "https://x/" "chat" ∧
    backendEndpoint "https://x/" "chat" = "https://x/chat" ∧
    BACKEND_ENDPOINT = backendEndpoint DEFAULT_BACKEND_URL DEFAULT_BACKEND_PATH :=
  c6_endpoint_resolution_amended "https://x/" "chat" (by decide)

end ChatPage
